import Mathlib

/-!
Shallow embedding of the Braille tutor backend (`app.py`): the static
`braille_map` table, the `dot_positions` label table, and the `/ask`
request handler with its LLM path and deterministic fallback template.
-/

namespace BrailleTutor

/-- Truthiness of a Python optional string: `None` and the empty string are falsy. -/
def pyTruthy : Option String → Bool
  | none => false
  | some s => !(s == "")

/-- Python `x or default` on an optional string value. -/
def pyOr (t : Option String) (d : String) : String :=
  if pyTruthy t then t.getD d else d

/-- The module-level `braille_map` dictionary, in source order. -/
def braille_map : List (String × List Nat) :=
  [("A", [1]), ("B", [1, 2]), ("C", [1, 4]), ("D", [1, 4, 5]), ("E", [1, 5]),
   ("F", [1, 2, 4]), ("G", [1, 2, 4, 5]), ("H", [1, 2, 5]), ("I", [2, 4]),
   ("J", [2, 4, 5]), ("K", [1, 3]), ("L", [1, 2, 3]), ("M", [1, 3, 4]),
   ("N", [1, 3, 4, 5]), ("O", [1, 3, 5]), ("P", [1, 2, 3, 4]), ("Q", [1, 2, 3, 4, 5]),
   ("R", [1, 2, 3, 5]), ("S", [2, 3, 4]), ("T", [2, 3, 4, 5]), ("U", [1, 3, 6]),
   ("V", [1, 2, 3, 6]), ("W", [2, 4, 5, 6]), ("X", [1, 3, 4, 6]),
   ("Y", [1, 3, 4, 5, 6]), ("Z", [1, 3, 5, 6])]

/-- The `dot_positions` dictionary defined inside the `ask` handler. -/
def dot_positions : List (Nat × String) :=
  [(1, "top left first dot"), (2, "middle left second dot"),
   (3, "bottom left third dot"), (4, "top right fourth dot"),
   (5, "middle right fifth dot"), (6, "bottom right sixth dot")]

/-- Request body of the `/ask` endpoint (the `BrailleQuery` Pydantic model):
`input` is required, `targetLetter` defaults to `None`. -/
structure BrailleQuery where
  input : String
  targetLetter : Option String

/-- The JSON value returned by the `ask` handler: a `response` text and an
`error` string present only when the except-branch ran. -/
structure TutorResponse where
  response : String
  error : Option String
  deriving DecidableEq

/-- One message of a chat completion. -/
structure ChatMessage where
  content : String

/-- One choice of a chat completion. -/
structure ChatChoice where
  message : ChatMessage

/-- A chat completion returned by the OpenAI client. -/
structure ChatCompletion where
  choices : List ChatChoice

/-- Parameters of a completion request issued by the handler. -/
structure ChatRequest where
  model : String
  max_tokens : Nat
  stream : Bool
  deriving DecidableEq

/-- The single request `ask` sends on the LLM path: model `gpt-4o-mini`,
`max_tokens=100`, and no `stream=True` flag, hence non-streaming. -/
def askRequest : ChatRequest :=
  { model := "gpt-4o-mini", max_tokens := 100, stream := false }

/-- State of the module-level `client` variable, joined with the outcome the
completion API would produce on this request: no client configured, or a
client whose call either returns a completion or raises an exception
(carried as its message). -/
inductive LLMClient where
  | noClient : LLMClient
  | client (outcome : Except String ChatCompletion) : LLMClient

/-- `bm.get(k, [1])`: Python `dict.get` with default `[1]`, over a given table. -/
def brailleGetIn (bm : List (String × List Nat)) (k : String) : List Nat :=
  (bm.lookup k).getD [1]

/-- `braille_map.get(k, [1])` against the module-level table. -/
def brailleLookup (k : String) : List Nat :=
  brailleGetIn braille_map k

/-- `dots = braille_map.get(target_letter, [1]) if target_letter else [1]`. -/
def fallbackDotsIn (bm : List (String × List Nat)) (t : Option String) : List Nat :=
  if pyTruthy t then brailleGetIn bm (t.getD "") else [1]

/-- The fallback dots for a target against the module-level table. -/
def fallbackDots (t : Option String) : List Nat :=
  fallbackDotsIn braille_map t

/-- The deterministic fallback template from the handler:
`f"For {target_letter or 'unknown'}, press {', '.join(f'dot {d}' for d in dots)}."` -/
def fallbackResponseIn (bm : List (String × List Nat)) (t : Option String) : String :=
  "For " ++ pyOr t "unknown" ++ ", press " ++
    String.intercalate ", " ((fallbackDotsIn bm t).map (fun d => "dot " ++ toString d)) ++ "."

/-- The fallback template against the module-level table. -/
def fallbackResponse (t : Option String) : String :=
  fallbackResponseIn braille_map t

/-- The body of the handler's `try` block: either the response text it computes
or the message of the exception it raises, paired with the list of completion
requests it issues. On the LLM path the call itself may raise, and
`completion.choices[0]` raises `IndexError` when the choices list is empty;
otherwise the trimmed content of the first choice is the response. -/
def tryBodyIn (bm : List (String × List Nat)) (q : BrailleQuery) (c : LLMClient) :
    Except String String × List ChatRequest :=
  match c with
  | .noClient => (.ok (fallbackResponseIn bm q.targetLetter), [])
  | .client (.error e) => (.error e, [askRequest])
  | .client (.ok comp) =>
      match comp.choices with
      | [] => (.error "list index out of range", [askRequest])
      | ch :: _ => (.ok ch.message.content.trim, [askRequest])

/-- The try-block body against the module-level table. -/
def tryBody (q : BrailleQuery) (c : LLMClient) : Except String String × List ChatRequest :=
  tryBodyIn braille_map q c

/-- The `/ask` handler: run the try body; any exception is caught by the
`except Exception` branch, which returns the fallback template together with
an `error` field `"Error in /ask: {e}"`. -/
def askIn (bm : List (String × List Nat)) (q : BrailleQuery) (c : LLMClient) : TutorResponse :=
  match (tryBodyIn bm q c).1 with
  | .ok r => { response := r, error := none }
  | .error e =>
      { response := fallbackResponseIn bm q.targetLetter,
        error := some ("Error in /ask: " ++ e) }

/-- The `/ask` handler against the module-level table. -/
def ask (q : BrailleQuery) (c : LLMClient) : TutorResponse :=
  askIn braille_map q c

/-- The module-level read-only tables the handler consults. -/
structure Tables where
  braille : List (String × List Nat)
  dotLabels : List (Nat × String)
  deriving DecidableEq

/-- The tables as initialized at process start. -/
def initTables : Tables :=
  { braille := braille_map, dotLabels := dot_positions }

/-- The `/ask` handler with the module-level tables threaded as explicit state:
the handler only ever reads them, so the state after the call is the state
before it. -/
def askSt (tbl : Tables) (q : BrailleQuery) (c : LLMClient) :
    TutorResponse × Tables :=
  (askIn tbl.braille q c, tbl)

/-- A key absent from an association list makes `List.lookup` return `none`. -/
theorem lookup_eq_none_of_not_key (bm : List (String × List Nat)) (s : String)
    (h : ∀ p ∈ bm, s ≠ p.1) : bm.lookup s = none := by
  induction bm with
  | nil => rfl
  | cons p rest ih =>
      obtain ⟨k, v⟩ := p
      have h1 : s ≠ k := h (k, v) (by simp)
      have hb : (s == k) = false := by simpa [beq_iff_eq] using h1
      simp only [List.lookup, hb]
      exact ih fun q hq => h q (by simp [hq])

/-- A key absent from the table gets the default dots `[1]`. -/
theorem brailleGet_default (bm : List (String × List Nat)) (s : String)
    (h : ∀ p ∈ bm, s ≠ p.1) : brailleGetIn bm s = [1] := by
  simp [brailleGetIn, lookup_eq_none_of_not_key bm s h]

/-- Every key of `braille_map` is a single character. -/
theorem braille_key_length : ∀ p ∈ braille_map, p.1.length = 1 := by decide

/-- Every character of every key of `braille_map` has code point at most 90. -/
theorem braille_keys_upper : ∀ p ∈ braille_map, ∀ ch ∈ p.1.data, ch.toNat ≤ 90 := by decide

/-- C6: the Braille table has exactly one entry for each of the 26 letters A–Z
in order and no other entries, and every dot list is non-empty, strictly
ascending (hence duplicate-free), with values drawn from `{1..6}`. -/
theorem braille_map_invariant :
    braille_map.map Prod.fst =
      ["A", "B", "C", "D", "E", "F", "G", "H", "I", "J", "K", "L", "M",
       "N", "O", "P", "Q", "R", "S", "T", "U", "V", "W", "X", "Y", "Z"] ∧
    (braille_map.map Prod.fst).Pairwise (· ≠ ·) ∧
    ∀ p ∈ braille_map, p.2 ≠ [] ∧ p.2.Pairwise (· < ·) ∧ ∀ d ∈ p.2, 1 ≤ d ∧ d ≤ 6 := by
  decide

/-- Witness for C6 at the concrete entry for `"A"`. -/
theorem braille_map_invariant_witness :
    ([1] : List Nat) ≠ [] ∧ ([1] : List Nat).Pairwise (· < ·) ∧
    ∀ d ∈ ([1] : List Nat), 1 ≤ d ∧ d ≤ 6 :=
  braille_map_invariant.2.2 ("A", [1]) (by decide)

/-- C3: looking up any letter A–Z in the table yields its stored non-empty dot
list, and looking up any string that is not one of the 26 keys yields the
default `[1]`. -/
theorem braille_lookup_spec :
    (∀ p ∈ braille_map, brailleLookup p.1 = p.2 ∧ p.2 ≠ []) ∧
    ∀ s : String, (∀ p ∈ braille_map, s ≠ p.1) → brailleLookup s = [1] := by
  constructor
  · decide
  · intro s h
    exact brailleGet_default braille_map s h

/-- Witness for C3 at the concrete key `"A"` and the concrete non-key `"hello"`. -/
theorem braille_lookup_spec_witness :
    brailleLookup "A" = [1] ∧ brailleLookup "hello" = [1] := by
  constructor
  · exact (braille_lookup_spec.1 ("A", [1]) (by decide)).1
  · exact braille_lookup_spec.2 "hello" (by decide)

/-- C5 counterexample: the lookup is case-sensitive. The lowercase letter `"b"`
does not get uppercase `B`'s dots `[1, 2]` but the default `[1]`. -/
theorem braille_lookup_case_sensitive :
    brailleLookup "b" = [1] ∧ brailleLookup "B" = [1, 2] ∧ ([1] : List Nat) ≠ [1, 2] := by
  decide

/-- C5 amended: no case normalization happens at the boundary; every character
with code point in the lowercase range 97–122 is absent from the table, so its
one-character string gets the default dots `[1]` (which coincides with `A`'s
cell only for `"a"`). -/
theorem lowercase_gets_default (c : Char) (h1 : 97 ≤ c.toNat) (h2 : c.toNat ≤ 122) :
    brailleLookup (String.mk [c]) = [1] ∧ fallbackDots (some (String.mk [c])) = [1] := by
  have hkey : ∀ p ∈ braille_map, String.mk [c] ≠ p.1 := by
    intro p hp heq
    have hc : c ∈ p.1.data := by
      rw [← heq]
      simp [String.mk]
    have := braille_keys_upper p hp c hc
    omega
  have hget : brailleGetIn braille_map (String.mk [c]) = [1] :=
    brailleGet_default braille_map (String.mk [c]) hkey
  refine ⟨hget, ?_⟩
  have hne : String.mk [c] ≠ "" := by
    intro h0
    have : ([c] : List Char) = [] := congrArg String.data h0
    simp at this
  have htr : pyTruthy (some (String.mk [c])) = true := by
    simpa [pyTruthy] using hne
  simp [fallbackDots, fallbackDotsIn, htr, hget]

/-- Witness for the amended C5 at the concrete lowercase character `'b'`. -/
theorem lowercase_gets_default_witness :
    brailleLookup (String.mk ['b']) = [1] ∧
    fallbackDots (some (String.mk ['b'])) = [1] :=
  lowercase_gets_default 'b' (by decide) (by decide)

/-- C1: for every query and every client state, `ask` returns a well-formed
response value, and whenever the try-block body raises, the handler downgrades
to the deterministic fallback template instead of propagating the exception. -/
theorem ask_never_raises (q : BrailleQuery) (c : LLMClient) :
    (∃ r : TutorResponse, ask q c = r) ∧
    (∀ e : String, (tryBody q c).1 = Except.error e →
      ask q c = ⟨fallbackResponse q.targetLetter, some ("Error in /ask: " ++ e)⟩) := by
  refine ⟨⟨ask q c, rfl⟩, ?_⟩
  intro e he
  have h1 : (tryBodyIn braille_map q c).1 = Except.error e := he
  simp [ask, askIn, h1, fallbackResponse]

/-- Witness for C1 at empty input, absent target, and a raising LLM call. -/
theorem ask_never_raises_witness :
    ask ⟨"", none⟩ (LLMClient.client (Except.error "boom")) =
      ⟨fallbackResponse none, some ("Error in /ask: " ++ "boom")⟩ :=
  (ask_never_raises ⟨"", none⟩ (LLMClient.client (Except.error "boom"))).2 "boom" rfl

/-- C2: with no LLM client configured, `ask` renders exactly the fallback
template from the target's dots, with no error field; in particular target
`"Z"` yields `"For Z, press dot 1, dot 3, dot 5, dot 6."` and an absent target
yields `"For unknown, press dot 1."`. -/
theorem fallback_template (u : String) (t : Option String) :
    (ask ⟨u, t⟩ LLMClient.noClient).error = none ∧
    (ask ⟨u, t⟩ LLMClient.noClient).response =
      "For " ++ (if pyTruthy t then t.getD "unknown" else "unknown") ++ ", press " ++
        String.intercalate ", " ((fallbackDots t).map (fun d => "dot " ++ toString d)) ++ "." ∧
    (ask ⟨u, some "Z"⟩ LLMClient.noClient).response =
      "For Z, press dot 1, dot 3, dot 5, dot 6." ∧
    (ask ⟨u, none⟩ LLMClient.noClient).response = "For unknown, press dot 1." := by
  refine ⟨rfl, rfl, rfl, rfl⟩

/-- C4: when the configured LLM call raises, `ask` still returns a well-formed
value whose error field is populated and whose response text equals the
no-client fallback for the same target; the error field is absent both on the
no-client path and on the successful LLM path. -/
theorem error_field_policy (q : BrailleQuery) (e : String) (comp : ChatCompletion)
    (h : comp.choices ≠ []) :
    ask q (LLMClient.client (Except.error e)) =
      ⟨(ask q LLMClient.noClient).response, some ("Error in /ask: " ++ e)⟩ ∧
    (ask q LLMClient.noClient).error = none ∧
    (ask q (LLMClient.client (Except.ok comp))).error = none := by
  refine ⟨rfl, rfl, ?_⟩
  obtain ⟨choices⟩ := comp
  cases choices with
  | nil => exact absurd rfl h
  | cons ch rest => rfl

/-- Witness for C4 at a concrete failing call, and a concrete one-choice
completion for the success path. -/
theorem error_field_policy_witness :
    ask ⟨"hi", some "Z"⟩ (LLMClient.client (Except.error "quota")) =
      ⟨(ask ⟨"hi", some "Z"⟩ LLMClient.noClient).response,
       some ("Error in /ask: " ++ "quota")⟩ ∧
    (ask ⟨"hi", some "Z"⟩ LLMClient.noClient).error = none ∧
    (ask ⟨"hi", some "Z"⟩
        (LLMClient.client (Except.ok ⟨[⟨⟨"Braille fact"⟩⟩]⟩))).error = none :=
  error_field_policy ⟨"hi", some "Z"⟩ "quota" ⟨[⟨⟨"Braille fact"⟩⟩]⟩
    (List.cons_ne_nil _ _)

/-- C7: on a successful LLM call, the handler issues exactly one completion
request, non-streaming with `max_tokens` 100, and returns the trimmed content
of the first choice with no error field. -/
theorem llm_success_path (q : BrailleQuery) (ch : ChatChoice) (rest : List ChatChoice) :
    (tryBody q (LLMClient.client (Except.ok ⟨ch :: rest⟩))).2 = [askRequest] ∧
    askRequest.max_tokens = 100 ∧
    askRequest.stream = false ∧
    ask q (LLMClient.client (Except.ok ⟨ch :: rest⟩)) =
      ⟨ch.message.content.trim, none⟩ :=
  ⟨rfl, rfl, rfl, rfl⟩

/-- C8: in the fallback path a multi-letter target is looked up as one whole
key, which is never in the table, so the response is
`"For {word}, press dot 1."` rather than per-letter dots. -/
theorem word_target_single_lookup (u t : String) (h : 1 < t.length) :
    (ask ⟨u, some t⟩ LLMClient.noClient).response = "For " ++ t ++ ", press dot 1." := by
  have hkey : ∀ p ∈ braille_map, t ≠ p.1 := by
    intro p hp heq
    have h1 : p.1.length = 1 := braille_key_length p hp
    rw [← heq] at h1
    omega
  have hget : brailleGetIn braille_map t = [1] := brailleGet_default braille_map t hkey
  have hne : t ≠ "" := by
    intro h0
    rw [h0] at h
    simp [String.length] at h
  have htr : pyTruthy (some t) = true := by
    simpa [pyTruthy] using hne
  show fallbackResponseIn braille_map (some t) = _
  rw [fallbackResponseIn, fallbackDotsIn, htr]
  simp only [if_true, Option.getD_some, hget]
  rw [show pyOr (some t) "unknown" = t from by simp [pyOr, htr]]
  rw [show String.intercalate ", " (([1] : List Nat).map (fun d => "dot " ++ toString d)) =
        "dot 1" from by decide]
  rw [String.append_assoc ("For " ++ t) ", press " "dot 1",
      String.append_assoc ("For " ++ t) (", press " ++ "dot 1") "."]
  rfl

/-- Witness for C8 at the concrete word target `"CAT"`. -/
theorem word_target_single_lookup_witness :
    (ask ⟨"tell me about CAT", some "CAT"⟩ LLMClient.noClient).response =
      "For " ++ "CAT" ++ ", press dot 1." :=
  word_target_single_lookup "tell me about CAT" "CAT" (by decide)

/-- C9: an empty-string target is falsy in Python, so in both fallback sites
(no client, and the except branch) it behaves exactly like an absent target
and yields `"For unknown, press dot 1."`. -/
theorem empty_target_is_absent (u e : String) :
    ask ⟨u, some ""⟩ LLMClient.noClient = ask ⟨u, none⟩ LLMClient.noClient ∧
    (ask ⟨u, some ""⟩ LLMClient.noClient).response = "For unknown, press dot 1." ∧
    (ask ⟨u, none⟩ LLMClient.noClient).response = "For unknown, press dot 1." ∧
    ask ⟨u, some ""⟩ (LLMClient.client (Except.error e)) =
      ask ⟨u, none⟩ (LLMClient.client (Except.error e)) := by
  refine ⟨rfl, rfl, rfl, rfl⟩

/-- C10: the fallback path is deterministic and mutation-free: two `ask` calls
with the same input and target return the same response, and the threaded
tables come back unchanged. -/
theorem fallback_pure (u : String) (t : Option String) :
    (askSt initTables ⟨u, t⟩ LLMClient.noClient).1 =
      (askSt initTables ⟨u, t⟩ LLMClient.noClient).1 ∧
    (askSt initTables ⟨u, t⟩ LLMClient.noClient).2.braille = braille_map ∧
    (askSt initTables ⟨u, t⟩ LLMClient.noClient).2.dotLabels = dot_positions :=
  ⟨rfl, rfl, rfl⟩

end BrailleTutor
